import Mathlib

/-!
Verification of the PDFoster Creative API handlers.

The repository holds two serverless JavaScript handlers:
a Creative Generator (`netlify/functions/generate-creative.js`) and a
Video Status Checker.  Both parse an HTTP event, call a vendor API and
reshape the vendor response into JSON.  We embed the JavaScript value
domain shallowly (`JSValue`, with `undefined` and `null` distinct, as in
JavaScript), treat the outbound `fetch`/`response.json()` pair and
`JSON.parse` as oracles supplied by the environment, and translate each
handler body statement by statement.  JavaScript numbers are embedded as
rationals: the handlers only move number literals around (table lookups
and pass-through), never compute with them, so no rounding behaviour is
lost.
-/

/-- The JavaScript value domain as observed by these handlers.
`undefined` is JavaScript `undefined`, distinct from `null`; objects are
ordered field lists (every object literal these handlers build has
pairwise distinct keys). -/
inductive JSValue where
  | undefined : JSValue
  | null : JSValue
  | bool : Bool → JSValue
  | num : ℚ → JSValue
  | str : String → JSValue
  | arr : List JSValue → JSValue
  | obj : List (String × JSValue) → JSValue

mutual

/-- Structural equality test on `JSValue`, recursing through the nested
list positions (the deriving handler does not cover them). -/
def JSValue.beq : JSValue → JSValue → Bool
  | .undefined, .undefined => true
  | .null, .null => true
  | .bool a, .bool b => a == b
  | .num a, .num b => a == b
  | .str a, .str b => a == b
  | .arr a, .arr b => JSValue.beqList a b
  | .obj a, .obj b => JSValue.beqFields a b
  | _, _ => false

def JSValue.beqList : List JSValue → List JSValue → Bool
  | [], [] => true
  | x :: xs, y :: ys => JSValue.beq x y && JSValue.beqList xs ys
  | _, _ => false

def JSValue.beqFields : List (String × JSValue) → List (String × JSValue) → Bool
  | [], [] => true
  | (k₁, v₁) :: xs, (k₂, v₂) :: ys =>
      k₁ == k₂ && JSValue.beq v₁ v₂ && JSValue.beqFields xs ys
  | _, _ => false

end

mutual

theorem JSValue.beq_iff_eq : ∀ a b : JSValue, JSValue.beq a b = true ↔ a = b
  | .undefined, b => by cases b <;> simp [JSValue.beq]
  | .null, b => by cases b <;> simp [JSValue.beq]
  | .bool _, b => by cases b <;> simp [JSValue.beq]
  | .num _, b => by cases b <;> simp [JSValue.beq]
  | .str _, b => by cases b <;> simp [JSValue.beq]
  | .arr x, b => by
      cases b <;> simp [JSValue.beq]
      exact JSValue.beqList_iff_eq x _
  | .obj x, b => by
      cases b <;> simp [JSValue.beq]
      exact JSValue.beqFields_iff_eq x _

theorem JSValue.beqList_iff_eq :
    ∀ xs ys : List JSValue, JSValue.beqList xs ys = true ↔ xs = ys
  | [], ys => by cases ys <;> simp [JSValue.beqList]
  | x :: xs, ys => by
      cases ys with
      | nil => simp [JSValue.beqList]
      | cons y ys =>
          simp [JSValue.beqList, JSValue.beq_iff_eq x y,
            JSValue.beqList_iff_eq xs ys]

theorem JSValue.beqFields_iff_eq :
    ∀ xs ys : List (String × JSValue), JSValue.beqFields xs ys = true ↔ xs = ys
  | [], ys => by cases ys <;> simp [JSValue.beqFields]
  | (k, v) :: xs, ys => by
      cases ys with
      | nil => simp [JSValue.beqFields]
      | cons y ys =>
          obtain ⟨k₂, v₂⟩ := y
          simp [JSValue.beqFields, JSValue.beq_iff_eq v v₂,
            JSValue.beqFields_iff_eq xs ys, and_assoc]

end

instance : DecidableEq JSValue := fun a b =>
  decidable_of_iff (JSValue.beq a b = true) (JSValue.beq_iff_eq a b)

/-- Field lookup in an object: first binding wins (all objects built by
these handlers have distinct keys, and vendor data in our statements is
hypothesised with distinct keys, so this agrees with JavaScript). -/
def lookupField (fields : List (String × JSValue)) (k : String) : JSValue :=
  match fields with
  | [] => .undefined
  | (k₁, v) :: rest => if k₁ = k then v else lookupField rest k

/-- JavaScript truthiness: `undefined`, `null`, `false`, `0` and the
empty string are falsy; every other value (arrays and objects included)
is truthy. -/
def JSValue.truthy : JSValue → Bool
  | .undefined => false
  | .null => false
  | .bool b => b
  | .num q => q ≠ 0
  | .str s => s ≠ ""
  | .arr _ => true
  | .obj _ => true

/-- JavaScript Number-to-String conversion, exact on integers (the only
numbers these handlers ever interpolate into message or URL strings). -/
def numDisplay (q : ℚ) : String :=
  if q.den = 1 then toString q.num else toString q

mutual

/-- JavaScript `String(v)` conversion, as performed by template literals
and by the `Error` constructor: arrays join their elements with commas
(`undefined`/`null` elements become empty), objects print as
`[object Object]`. -/
def JSValue.toDisplay : JSValue → String
  | .undefined => "undefined"
  | .null => "null"
  | .bool b => cond b "true" "false"
  | .num q => numDisplay q
  | .str s => s
  | .arr xs => String.intercalate "," (JSValue.displayList xs)
  | .obj _ => "[object Object]"

def JSValue.displayList : List JSValue → List String
  | [] => []
  | .undefined :: xs => "" :: JSValue.displayList xs
  | .null :: xs => "" :: JSValue.displayList xs
  | x :: xs => JSValue.toDisplay x :: JSValue.displayList xs

end

/-- JavaScript property access `v.k`, which throws a TypeError when the
base is `undefined` or `null`; the `Except` error carries the thrown
error message as caught by the handlers. -/
def JSValue.getProp : JSValue → String → Except String JSValue
  | .undefined, k => .error ("Cannot read properties of undefined (reading " ++ k ++ ")")
  | .null, k => .error ("Cannot read properties of null (reading " ++ k ++ ")")
  | .obj fields, k => .ok (lookupField fields k)
  | .str s, k => .ok (if k = "length" then .num (s.length : ℚ) else .undefined)
  | _, _ => .ok .undefined

/-- Optional chaining `v?.k`: `undefined` on a nullish base, otherwise
ordinary property access. -/
def JSValue.getPropChain : JSValue → String → JSValue
  | .undefined, _ => .undefined
  | .null, _ => .undefined
  | .obj fields, k => lookupField fields k
  | .str s, k => if k = "length" then .num (s.length : ℚ) else .undefined
  | _, _ => .undefined

/-- JavaScript index access `v[0]` on a non-nullish base: first array
element (`undefined` for an empty array), first character of a string,
property "0" of an object, `undefined` on other primitives. -/
def JSValue.idx0 : JSValue → JSValue
  | .arr (x :: _) => x
  | .arr [] => .undefined
  | .str s => if s.isEmpty then .undefined else .str (s.take 1)
  | .obj fields => lookupField fields "0"
  | _ => .undefined

/-- Non-optional `v[0]`: throws a TypeError on a nullish base. -/
def JSValue.getIdx0 : JSValue → Except String JSValue
  | .undefined => .error "Cannot read properties of undefined (reading 0)"
  | .null => .error "Cannot read properties of null (reading 0)"
  | v => .ok v.idx0

/-- Optional-chained index `v?.[0]`. -/
def JSValue.idx0Chain : JSValue → JSValue
  | .undefined => .undefined
  | .null => .undefined
  | v => v.idx0

/-- Whether `sub` is a leading segment of `s`. -/
def leadsWith (sub s : List Char) : Bool :=
  match sub, s with
  | [], _ => true
  | _ :: _, [] => false
  | a :: as, b :: bs => a == b && leadsWith as bs

/-- Whether `sub` occurs contiguously somewhere inside `s`. -/
def hasSubseg (sub s : List Char) : Bool :=
  leadsWith sub s ||
    match s with
    | [] => false
    | _ :: bs => hasSubseg sub bs

/-- Substring containment on strings. -/
def containsSub (s sub : String) : Bool := hasSubseg sub.toList s.toList

/-- JavaScript `v.includes(sub)` as used on `options.size`: substring
test on strings, membership test on arrays, a TypeError on any other
non-nullish base (which has no `includes` method). -/
def jsIncludes (v : JSValue) (sub : String) : Except String Bool :=
  match v with
  | .str s => .ok (containsSub s sub)
  | .arr xs => .ok (xs.contains (.str sub))
  | _ => .error "includes is not a function"

/-- The `message` of `new Error(x)`: empty when `x` is `undefined`,
otherwise the string conversion of `x`. -/
def errMsgOf (v : JSValue) : String :=
  if v = .undefined then "" else v.toDisplay

/-- The process environment variables read by the handlers.  `none`
models an unset variable; the handlers test them with JavaScript
truthiness, so a set-but-empty variable behaves like an unset one. -/
structure Env where
  OPENAI_API_KEY : Option String
  RUNWAY_API_KEY : Option String
  SUPABASE_URL : Option String
  SUPABASE_SERVICE_ROLE_KEY : Option String
  NODE_ENV : Option String

/-- Truthiness of `process.env.X`: set and non-empty. -/
def envTruthy : Option String → Bool
  | none => false
  | some s => s ≠ ""

/-- Outcomes of the outbound `fetch(...)` / `response.json()` pairs, one
per endpoint the Creative Generator can call.  `.ok data` is the parsed
vendor response body; `.error m` models a rejected fetch or a JSON
parse failure whose thrown message is `m`. -/
structure Vendor where
  imageData : Except String JSValue
  videoData : Except String JSValue
  usageData : Except String JSValue

/-- An HTTP response as returned by a handler: the status code and the
value passed to `JSON.stringify` to form the body (for `OPTIONS` the
body is the literal empty string).  The CORS headers, a fixed constant
attached to every return, are not modelled. -/
structure Response where
  statusCode : Nat
  body : JSValue
deriving DecidableEq

/-- The fields present in `JSON.stringify(obj)`: `JSON.stringify` omits
every property whose value is `undefined`. -/
def serializedFields : JSValue → List (String × JSValue)
  | .obj fields => fields.filter (fun p => decide (p.2 ≠ JSValue.undefined))
  | _ => []

/-- The value of field `k` in the serialized response body, `none` when
the key is absent from the JSON text. -/
def fieldOf (r : Response) (k : String) : Option JSValue :=
  ((serializedFields r.body).find? (fun p => p.1 == k)).map Prod.snd

/-- The static cost table `COSTS` of generate-creative.js. -/
def COSTS : List (String × ℚ) :=
  [("dall-e-3-standard", 0.04),
   ("dall-e-3-hd", 0.08),
   ("dall-e-3-wide", 0.08),
   ("dall-e-3-wide-hd", 0.12),
   ("gpt-image-mini", 0.015),
   ("runway-video", 0.50)]

/-- The lookup `COSTS[k]` as a JavaScript value: `undefined` when the
key is absent from the table. -/
def costOf (k : String) : JSValue :=
  match (COSTS.find? (fun p => p.1 == k)).map Prod.snd with
  | some q => .num q
  | none => .undefined

/-- One field of an object destructuring with a default value: throws
on a nullish source; the default applies exactly when the property is
`undefined`. -/
def destr (v : JSValue) (k : String) (dflt : JSValue) : Except String JSValue := do
  let x ← v.getProp k
  pure (if x = .undefined then dflt else x)

/-- `generateImage(prompt, options)` of generate-creative.js: checks the
OpenAI key, reads the option defaults, performs the fetch (the oracle
`vendor.imageData` stands for the `fetch` and `response.json()` pair;
the outbound request body is not modelled since the oracle ignores it),
throws on a truthy vendor `error` field, and shapes the result object. -/
def generateImage (env : Env) (vendor : Vendor) (prompt : JSValue)
    (options : JSValue) : Except String JSValue := do
  if ¬ envTruthy env.OPENAI_API_KEY then throw "OPENAI_API_KEY not configured"
  let options := if options = .undefined then .obj [] else options
  let model ← destr options "model" (.str "dall-e-3")
  let size ← destr options "size" (.str "1024x1024")
  let quality ← destr options "quality" (.str "standard")
  let _style ← destr options "style" (.str "vivid")
  let data ← vendor.imageData
  let errv ← data.getProp "error"
  if errv.truthy then do
    let m ← errv.getProp "message"
    throw (errMsgOf m)
  let d ← data.getProp "data"
  let d0 ← d.getIdx0
  let url ← d0.getProp "url"
  let rp ← d0.getProp "revised_prompt"
  pure (.obj [("image_url", url), ("revised_prompt", rp), ("model", model),
      ("size", size), ("quality", quality)])

/-- `generateVideo(prompt, options)` of generate-creative.js: checks the
Runway key, reads the option defaults, performs the fetch (oracle
`vendor.videoData`), throws on a truthy vendor `error` field, and shapes
the asynchronous task-handle result, including the fixed `note` text. -/
def generateVideo (env : Env) (vendor : Vendor) (prompt : JSValue)
    (options : JSValue) : Except String JSValue := do
  if ¬ envTruthy env.RUNWAY_API_KEY then throw "RUNWAY_API_KEY not configured"
  let options := if options = .undefined then .obj [] else options
  let duration ← destr options "duration" (.num 5)
  let model ← destr options "model" (.str "gen3a_turbo")
  let data ← vendor.videoData
  let errv ← data.getProp "error"
  if errv.truthy then throw (errMsgOf errv)
  let tid ← data.getProp "id"
  pure (.obj [("task_id", tid), ("status", .str "processing"),
      ("poll_url", .str ("https://api.dev.runwayml.com/v1/tasks/" ++ tid.toDisplay)),
      ("model", model), ("duration", duration),
      ("note", .str "Video is generating. Poll the task_id endpoint for completion.")])

/-- The body of `logUsage` before its surrounding try/catch: missing
Supabase configuration warns locally and returns; otherwise the fetch to
the usage table runs and a rejection propagates to the catch.  The
posted record is assembled and discarded (the oracle ignores request
bodies; its `created_at` timestamp, a wall-clock read, is omitted). -/
def logUsageInner (env : Env) (vendor : Vendor) (customerId ty cost : JSValue)
    (costKey : String) : Except String Unit := do
  if ¬ (envTruthy env.SUPABASE_URL && envTruthy env.SUPABASE_SERVICE_ROLE_KEY) then
    pure ()
  else do
    let _record := JSValue.obj [("customer_id", customerId), ("type", ty),
        ("cost", cost), ("cost_key", .str costKey)]
    let _ ← vendor.usageData
    pure ()

/-- `logUsage` of generate-creative.js: its whole body is wrapped in
try/catch; an error is logged locally and swallowed. -/
def logUsage (env : Env) (vendor : Vendor) (customerId ty cost : JSValue)
    (costKey : String) : Except String Unit :=
  match logUsageInner env vendor customerId ty cost costKey with
  | .ok _ => .ok ()
  | .error _ => .ok ()

/-- The value of `options.size?.includes("1792")`: false on a nullish
size (short-circuited by the optional chaining), otherwise the
`includes` call, which can throw on a non-string size. -/
def sizeWide (size : JSValue) : Except String Bool :=
  if size = .undefined ∨ size = .null then pure false else jsIncludes size "1792"

/-- The image-arm cost-key expression of the handler, verbatim:
`options.quality === "hd" ? (options.size?.includes("1792") ? "dall-e-3-wide-hd" : "dall-e-3-hd") : (options.size?.includes("1792") ? "dall-e-3-wide" : "dall-e-3-standard")`.
Both ternary arms read the same `options.size?.includes("1792")`, so
the test is hoisted. -/
def imageCostKey (options : JSValue) : Except String String := do
  let quality ← options.getProp "quality"
  let size ← options.getProp "size"
  let wide ← sizeWide size
  pure (if quality = .str "hd" then
          (if wide then "dall-e-3-wide-hd" else "dall-e-3-hd")
        else
          (if wide then "dall-e-3-wide" else "dall-e-3-standard"))

/-- The HTTP event as the Creative Generator sees it: the method and the
outcome of `JSON.parse(event.body)` (`.error m` when the raw body text
does not parse, `m` being the SyntaxError message thrown inside the
handler's try block). -/
structure GenEvent where
  httpMethod : String
  body : Except String JSValue

/-- A `logUsage` invocation observed from the handler: the arguments it
was called with. -/
structure UsageCall where
  customer_id : JSValue
  ty : JSValue
  cost : JSValue
  cost_key : String
deriving DecidableEq

/-- Object-spread `...result` inside an object literal: an object
contributes its fields in order (the generation results are always
objects whose keys are disjoint from the envelope keys). -/
def spreadFields : JSValue → List (String × JSValue)
  | .obj fields => fields
  | _ => []

/-- Tail of each successful switch arm: the conditional `logUsage` call
(guarded by `customer_id && process.env.SUPABASE_URL`) and the 200
envelope with the generation result spread at top level. -/
def genFinish (env : Env) (vendor : Vendor) (ty customer_id cost : JSValue)
    (costKey : String) (result : JSValue) :
    Except String (Response × Option UsageCall) := do
  if customer_id.truthy && envTruthy env.SUPABASE_URL then do
    let _ ← logUsage env vendor customer_id ty cost costKey
    pure (⟨200, .obj ([("success", .bool true), ("type", ty), ("cost", cost)]
        ++ spreadFields result)⟩, some ⟨customer_id, ty, cost, costKey⟩)
  else
    pure (⟨200, .obj ([("success", .bool true), ("type", ty), ("cost", cost)]
        ++ spreadFields result)⟩, none)

/-- The options value the handler destructures: the body's `options`
field, defaulted to the empty object exactly when it is `undefined`. -/
def optsOf (b : JSValue) : Except String JSValue := do
  let o ← b.getProp "options"
  pure (if o = .undefined then .obj [] else o)

/-- The `try` block of the Creative Generator handler: parse, the
destructuring of `type`, `prompt`, `customer_id`, `options` (defaulted
to the empty object), the missing-fields check, and the `switch`. -/
def genTry (env : Env) (vendor : Vendor) (event : GenEvent) :
    Except String (Response × Option UsageCall) := do
  let body ← event.body
  let ty ← body.getProp "type"
  let prompt ← body.getProp "prompt"
  let customer_id ← body.getProp "customer_id"
  let options ← optsOf body
  if ¬ ty.truthy ∨ ¬ prompt.truthy then
    pure (⟨400, .obj [("error", .str "Missing required fields: type, prompt")]⟩, none)
  else if ty = .str "image" then do
    let result ← generateImage env vendor prompt options
    let costKey ← imageCostKey options
    genFinish env vendor ty customer_id (costOf costKey) costKey result
  else if ty = .str "video" then do
    let result ← generateVideo env vendor prompt options
    genFinish env vendor ty customer_id (costOf "runway-video") "runway-video" result
  else
    pure (⟨400, .obj [("error",
        .str ("Unknown type: " ++ ty.toDisplay ++ ". Use \"image\" or \"video\""))]⟩, none)

/-- `exports.handler` of generate-creative.js: CORS preflight, method
check, then the try block with its catch producing a 500 whose message
is `error.message || "Generation failed"` and whose `details` field is
the stack trace only under `NODE_ENV === "development"` (the stack text
is abstracted here by the error message).  The second component records
the observed `logUsage` invocation, if any. -/
def generateHandler (env : Env) (vendor : Vendor) (event : GenEvent) :
    Response × Option UsageCall :=
  if event.httpMethod = "OPTIONS" then (⟨200, .str ""⟩, none)
  else if event.httpMethod ≠ "POST" then
    (⟨405, .obj [("error", .str "Method not allowed")]⟩, none)
  else
    match genTry env vendor event with
    | .ok r => r
    | .error m =>
        (⟨500, .obj [("error", .str (if m = "" then "Generation failed" else m)),
            ("details", if env.NODE_ENV = some "development" then .str m else .undefined)]⟩,
         none)

/-- The HTTP event as the Status Checker sees it: the method and
`event.queryStringParameters` as a JavaScript value (`undefined` when the
runtime supplies none). -/
structure StatusEvent where
  httpMethod : String
  queryStringParameters : JSValue

/-- The `try` block of the Status Checker: checks the Runway key,
performs the task fetch (oracle `taskData`), throws on a truthy vendor
`error` field, and maps the vendor status onto the simplified status:
`SUCCEEDED` to `completed` with `video_url = data.output?.[0]`,
`FAILED` to `failed`, anything else to `processing`. -/
def statusTry (env : Env) (taskData : Except String JSValue)
    (taskId : JSValue) : Except String Response := do
  if ¬ envTruthy env.RUNWAY_API_KEY then throw "RUNWAY_API_KEY not configured"
  let data ← taskData
  let errv ← data.getProp "error"
  if errv.truthy then throw (errMsgOf errv)
  let st ← data.getProp "status"
  let status := if st = .str "SUCCEEDED" then "completed"
                else if st = .str "FAILED" then "failed"
                else "processing"
  let videoUrl := if st = .str "SUCCEEDED"
                  then (data.getPropChain "output").idx0Chain
                  else .null
  let progress ← data.getProp "progress"
  pure ⟨200, .obj [("task_id", taskId), ("status", .str status),
      ("video_url", videoUrl), ("progress", progress), ("raw_status", st)]⟩

/-- `exports.handler` of the Video Status Checker: CORS preflight,
method check, the `task_id` query-parameter check (JavaScript falsiness,
so a present-but-empty `task_id` is also rejected), then the try block
with its catch producing a 500 with the error message. -/
def statusHandler (env : Env) (taskData : Except String JSValue)
    (event : StatusEvent) : Response :=
  if event.httpMethod = "OPTIONS" then ⟨200, .str ""⟩
  else if event.httpMethod ≠ "GET" then
    ⟨405, .obj [("error", .str "Method not allowed")]⟩
  else
    let taskId := event.queryStringParameters.getPropChain "task_id"
    if ¬ taskId.truthy then
      ⟨400, .obj [("error", .str "Missing task_id parameter")]⟩
    else
      match statusTry env taskData taskId with
      | .ok r => r
      | .error m => ⟨500, .obj [("error", .str m)]⟩

deriving instance DecidableEq for Except

/-- A fully configured environment, used for concrete runs. -/
def envAll : Env :=
  ⟨some "openai-key", some "runway-key", some "https://supa.example",
   some "service-key", none⟩

/-- A vendor oracle whose three endpoints answer with empty objects. -/
def vendorEmpty : Vendor := ⟨.ok (.obj []), .ok (.obj []), .ok (.obj [])⟩

/-- A vendor oracle for a successful video task creation. -/
def vendorVideo : Vendor :=
  ⟨.ok (.obj []), .ok (.obj [("id", .str "t1")]), .ok (.obj [])⟩

/-- A vendor oracle for a successful image generation. -/
def vendorImage : Vendor :=
  ⟨.ok (.obj [("data", .arr [.obj [("url", .str "https://img.example/a.png"),
      ("revised_prompt", .str "a fluffy cat")]])]),
   .ok (.obj []), .ok (.obj [])⟩

/-- `logUsage` returns normally on every input: its try/catch swallows
every outcome of the data-store write. -/
theorem logUsage_ok (env : Env) (vendor : Vendor) (cid ty cost : JSValue)
    (ck : String) : logUsage env vendor cid ty cost ck = .ok () := by
  unfold logUsage
  cases logUsageInner env vendor cid ty cost ck <;> rfl

/-- C9: for every request to either handler with HTTP method OPTIONS,
the response has status 200 and an empty body, regardless of query
parameters, payload, vendor behaviour, or configuration state. -/
theorem options_preflight_200 (env : Env) (vendor : Vendor)
    (taskData : Except String JSValue) (gev : GenEvent) (sev : StatusEvent)
    (hg : gev.httpMethod = "OPTIONS") (hs : sev.httpMethod = "OPTIONS") :
    (generateHandler env vendor gev).1 = ⟨200, .str ""⟩ ∧
    statusHandler env taskData sev = ⟨200, .str ""⟩ := by
  constructor
  · simp [generateHandler, hg]
  · simp [statusHandler, hs]

theorem options_preflight_200_witness :
    (generateHandler envAll vendorEmpty ⟨"OPTIONS", .ok (.obj [])⟩).1 =
      ⟨200, .str ""⟩ ∧
    statusHandler envAll (.ok (.obj [])) ⟨"OPTIONS", .obj []⟩ =
      ⟨200, .str ""⟩ :=
  options_preflight_200 envAll vendorEmpty (.ok (.obj []))
    ⟨"OPTIONS", .ok (.obj [])⟩ ⟨"OPTIONS", .obj []⟩ rfl rfl

/-- C2 as stated is false: a POST whose raw body does not parse is
answered with HTTP 500, not 400 — the JSON.parse failure is thrown
inside the try block and lands in the generic catch. -/
theorem malformed_body_not_400 :
    (generateHandler envAll vendorEmpty
      ⟨"POST", .error "Unexpected token N in JSON at position 0"⟩).1.statusCode
      = 500 ∧
    (generateHandler envAll vendorEmpty
      ⟨"POST", .error "Unexpected token N in JSON at position 0"⟩).1.statusCode
      ≠ 400 := by
  constructor <;> decide

/-- C2 amended: for every POST whose body is not parseable, the handler
responds with HTTP 500 and the error field carries the parse failure's
message (or the generic fallback text when that message is empty). -/
theorem malformed_body_500 (env : Env) (vendor : Vendor) (m : String)
    (ev : GenEvent) (hm : ev.httpMethod = "POST") (hb : ev.body = .error m) :
    (generateHandler env vendor ev).1 =
      ⟨500, .obj [("error", .str (if m = "" then "Generation failed" else m)),
        ("details",
          if env.NODE_ENV = some "development" then .str m else .undefined)]⟩ := by
  obtain ⟨mth, bdy⟩ := ev
  dsimp only at hm hb
  subst hm
  subst hb
  rfl

theorem malformed_body_500_witness :
    (generateHandler envAll vendorEmpty
      ⟨"POST", .error "Unexpected token N in JSON at position 0"⟩).1 =
      ⟨500, .obj [("error", .str "Unexpected token N in JSON at position 0"),
        ("details", .undefined)]⟩ := by
  have h := malformed_body_500 envAll vendorEmpty
    "Unexpected token N in JSON at position 0"
    ⟨"POST", .error "Unexpected token N in JSON at position 0"⟩ rfl rfl
  simpa using h

theorem pure_ok {α : Type} (a : α) : (pure a : Except String α) = .ok a := rfl

theorem ok_bind {α β : Type} (a : α) (f : α → Except String β) :
    (Except.ok a >>= f) = f a := rfl

theorem error_bind {α β : Type} (m : String) (f : α → Except String β) :
    ((Except.error m : Except String α) >>= f) = Except.error m := rfl

/-- If one property read on `b` succeeds then `b` is not nullish, so
every property read on `b` succeeds. -/
theorem getProp_ok_of_ok {b : JSValue} {k : String} {v : JSValue}
    (h : b.getProp k = .ok v) (k₂ : String) : ∃ w, b.getProp k₂ = .ok w := by
  cases b <;> simp [JSValue.getProp] at h ⊢

/-- C5 as stated is false: a parseable body with type 0 (falsy, neither
"image" nor "video") and a valid prompt gets HTTP 400, but the error
message is the generic missing-fields text, which does not name the
offending value 0. -/
theorem unknown_type_counterexample :
    (generateHandler envAll vendorEmpty
      ⟨"POST", .ok (.obj [("type", .num 0), ("prompt", .str "a cat")])⟩).1 =
      ⟨400, .obj [("error", .str "Missing required fields: type, prompt")]⟩ ∧
    containsSub "Missing required fields: type, prompt"
      (JSValue.num 0).toDisplay = false := by
  constructor
  · rfl
  · rfl

/-- C5 amended: for every parseable POST body whose type field is
neither "image" nor "video", the response has status 400; the error
message names the offending type value exactly when both type and
prompt are truthy, and is the generic missing-fields message (which
does not mention the value) otherwise. -/
theorem unknown_type_400 (env : Env) (vendor : Vendor) (ev : GenEvent)
    (b ty prompt : JSValue)
    (hm : ev.httpMethod = "POST") (hb : ev.body = .ok b)
    (hty : b.getProp "type" = .ok ty) (hp : b.getProp "prompt" = .ok prompt)
    (h1 : ty ≠ .str "image") (h2 : ty ≠ .str "video") :
    (generateHandler env vendor ev).1.statusCode = 400 ∧
    (ty.truthy = true → prompt.truthy = true →
      (generateHandler env vendor ev).1.body = .obj [("error",
        .str ("Unknown type: " ++ ty.toDisplay ++ ". Use \"image\" or \"video\""))]) ∧
    (¬ (ty.truthy = true ∧ prompt.truthy = true) →
      (generateHandler env vendor ev).1.body =
        .obj [("error", .str "Missing required fields: type, prompt")]) := by
  obtain ⟨mth, bdy⟩ := ev
  dsimp only at hm hb
  subst hm
  subst hb
  obtain ⟨cid, hcid⟩ := getProp_ok_of_ok hty "customer_id"
  obtain ⟨opt, hopt⟩ := getProp_ok_of_ok hty "options"
  have hopts : optsOf b = .ok (if opt = .undefined then .obj [] else opt) := by
    simp [optsOf, hopt, ok_bind]
  by_cases hT : ty.truthy = true <;> by_cases hP : prompt.truthy = true <;>
    refine ⟨?_, ?_, ?_⟩ <;>
      simp [generateHandler, genTry, hty, hp, hcid, hopts, ok_bind, pure_ok,
        h1, h2, hT, hP]

theorem unknown_type_400_witness :
    (generateHandler envAll vendorEmpty
      ⟨"POST", .ok (.obj [("type", .str "banana"),
        ("prompt", .str "a cat")])⟩).1.statusCode = 400 ∧
    (generateHandler envAll vendorEmpty
      ⟨"POST", .ok (.obj [("type", .str "banana"),
        ("prompt", .str "a cat")])⟩).1.body = .obj [("error",
      .str "Unknown type: banana. Use \"image\" or \"video\"")] := by
  have h := unknown_type_400 envAll vendorEmpty
    ⟨"POST", .ok (.obj [("type", .str "banana"), ("prompt", .str "a cat")])⟩
    (.obj [("type", .str "banana"), ("prompt", .str "a cat")])
    (.str "banana") (.str "a cat") rfl rfl rfl rfl
    (by decide) (by decide)
  exact ⟨h.1, by simpa using h.2.1 rfl rfl⟩

/-- The wide-format marker test of the 2x2 decision: a string size
containing "1792" (an absent or null size is not wide). -/
def wideOf : JSValue → Bool
  | .str s => containsSub s "1792"
  | _ => false

/-- C3: on the image path the cost key is the 2x2 decision of
quality == "hd" crossed with the size containing "1792" (stated for a
string, null or absent size — a non-string size value would throw in
`includes` before any key is chosen), always yielding one of the four
dall-e-3 entries; in particular quality hd with size 1792x1024 yields
dall-e-3-wide-hd at cost 0.12. -/
theorem image_cost_key_2x2 (options quality size : JSValue)
    (hq : options.getProp "quality" = .ok quality)
    (hs : options.getProp "size" = .ok size)
    (hstr : size = .undefined ∨ size = .null ∨ ∃ s, size = .str s) :
    imageCostKey options =
      .ok (if quality = .str "hd" then
             (if wideOf size then "dall-e-3-wide-hd" else "dall-e-3-hd")
           else
             (if wideOf size then "dall-e-3-wide" else "dall-e-3-standard")) ∧
    (∃ k, imageCostKey options = .ok k ∧
      (k = "dall-e-3-wide-hd" ∨ k = "dall-e-3-hd" ∨ k = "dall-e-3-wide" ∨
       k = "dall-e-3-standard")) ∧
    imageCostKey (.obj [("quality", .str "hd"), ("size", .str "1792x1024")]) =
      .ok "dall-e-3-wide-hd" ∧
    costOf "dall-e-3-wide-hd" = .num 0.12 := by
  have hmain : imageCostKey options =
      .ok (if quality = .str "hd" then
             (if wideOf size then "dall-e-3-wide-hd" else "dall-e-3-hd")
           else
             (if wideOf size then "dall-e-3-wide" else "dall-e-3-standard")) := by
    rcases hstr with h | h | ⟨s, h⟩ <;> subst h <;>
      simp [imageCostKey, sizeWide, hq, hs, ok_bind, pure_ok, jsIncludes, wideOf]
  refine ⟨hmain, ⟨_, hmain, ?_⟩, by rfl, by rfl⟩
  split_ifs <;> simp

theorem image_cost_key_2x2_witness :
    imageCostKey (.obj [("quality", .str "hd"), ("size", .str "1792x1024")]) =
      .ok "dall-e-3-wide-hd" ∧
    costOf "dall-e-3-wide-hd" = .num 0.12 := by
  have h := image_cost_key_2x2
    (.obj [("quality", .str "hd"), ("size", .str "1792x1024")])
    (.str "hd") (.str "1792x1024") rfl rfl (Or.inr (Or.inr ⟨_, rfl⟩))
  exact ⟨h.2.2.1, h.2.2.2⟩

/-- C6: cost determinism — the cost key, and hence the looked-up cost,
is a pure function of the quality and size option values: two option
objects agreeing on quality and size produce identical image cost keys
and costs whatever their other fields (the video path is the constant
runway-video key). -/
theorem cost_deterministic (o₁ o₂ : JSValue)
    (hq : o₁.getProp "quality" = o₂.getProp "quality")
    (hs : o₁.getProp "size" = o₂.getProp "size") :
    imageCostKey o₁ = imageCostKey o₂ ∧
    (imageCostKey o₁).map costOf = (imageCostKey o₂).map costOf := by
  have h : imageCostKey o₁ = imageCostKey o₂ := by
    simp only [imageCostKey, hq, hs]
  exact ⟨h, by rw [h]⟩

theorem cost_deterministic_witness :
    imageCostKey (.obj [("quality", .str "hd"), ("extra", .num 1)]) =
      imageCostKey (.obj [("quality", .str "hd")]) ∧
    (imageCostKey (.obj [("quality", .str "hd"),
      ("extra", .num 1)])).map costOf =
      (imageCostKey (.obj [("quality", .str "hd")])).map costOf :=
  cost_deterministic _ _ rfl rfl

/-- Any key the image arm can return is one of the four dall-e-3 keys. -/
theorem imageCostKey_mem (options : JSValue) (k : String)
    (h : imageCostKey options = .ok k) :
    k = "dall-e-3-wide-hd" ∨ k = "dall-e-3-hd" ∨ k = "dall-e-3-wide" ∨
    k = "dall-e-3-standard" := by
  unfold imageCostKey at h
  cases hq : options.getProp "quality" with
  | error e => rw [hq, error_bind] at h; exact absurd h (by simp)
  | ok quality =>
    rw [hq, ok_bind] at h
    cases hs : options.getProp "size" with
    | error e => rw [hs, error_bind] at h; exact absurd h (by simp)
    | ok size =>
      rw [hs, ok_bind] at h
      cases hw : sizeWide size with
      | error e => rw [hw, error_bind] at h; exact absurd h (by simp)
      | ok wide =>
        rw [hw, ok_bind, pure_ok] at h
        obtain rfl : (if quality = .str "hd" then
            (if wide then "dall-e-3-wide-hd" else "dall-e-3-hd")
          else
            (if wide then "dall-e-3-wide" else "dall-e-3-standard")) = k := by
          simpa using h
        split_ifs <;> simp

/-- C7: every cost key computed on a validated path is a key of the
static 6-entry table, so the looked-up cost is defined — never
undefined — for any options values, unexpected quality strings
included; the video key runway-video is in the table likewise. -/
theorem cost_key_in_table (options : JSValue) (k : String)
    (h : imageCostKey options = .ok k) :
    ((COSTS.find? (fun p => p.1 == k)).isSome ∧ costOf k ≠ .undefined) ∧
    ((COSTS.find? (fun p => p.1 == "runway-video")).isSome ∧
      costOf "runway-video" ≠ .undefined) := by
  rcases imageCostKey_mem options k h with rfl | rfl | rfl | rfl <;>
    exact ⟨⟨by decide, by decide⟩, by decide, by decide⟩

theorem cost_key_in_table_witness :
    ((COSTS.find? (fun p => p.1 == "dall-e-3-standard")).isSome ∧
      costOf "dall-e-3-standard" ≠ .undefined) ∧
    ((COSTS.find? (fun p => p.1 == "runway-video")).isSome ∧
      costOf "runway-video" ≠ .undefined) :=
  cost_key_in_table (.obj []) "dall-e-3-standard" rfl

/-- The image generator reads only the image oracle of the vendor. -/
theorem generateImage_usage_indep (env : Env)
    (i v u₁ u₂ : Except String JSValue) (p o : JSValue) :
    generateImage env ⟨i, v, u₁⟩ p o = generateImage env ⟨i, v, u₂⟩ p o := rfl

/-- The video generator reads only the video oracle of the vendor. -/
theorem generateVideo_usage_indep (env : Env)
    (i v u₁ u₂ : Except String JSValue) (p o : JSValue) :
    generateVideo env ⟨i, v, u₁⟩ p o = generateVideo env ⟨i, v, u₂⟩ p o := rfl

/-- The success tail ignores the usage-log oracle: `logUsage` always
returns `.ok ()`, and its result is discarded. -/
theorem genFinish_usage_indep (env : Env) (i v u₁ u₂ : Except String JSValue)
    (ty cid cost : JSValue) (ck : String) (r : JSValue) :
    genFinish env ⟨i, v, u₁⟩ ty cid cost ck r =
      genFinish env ⟨i, v, u₂⟩ ty cid cost ck r := by
  simp [genFinish, logUsage_ok, ok_bind]

theorem genTry_usage_indep (env : Env) (i v u₁ u₂ : Except String JSValue)
    (ev : GenEvent) :
    genTry env ⟨i, v, u₁⟩ ev = genTry env ⟨i, v, u₂⟩ ev := by
  unfold genTry
  simp only [generateImage_usage_indep env i v u₁ u₂,
    generateVideo_usage_indep env i v u₁ u₂,
    genFinish_usage_indep env i v u₁ u₂]

/-- C4: the Usage Logger never raises to its caller — `logUsage`
returns normally for every input and every outcome of the data-store
write — and the Creative Generator's HTTP response (status and body)
is the same whatever the usage-log fetch outcome. -/
theorem log_usage_never_raises (env : Env) (vendor : Vendor)
    (cid ty cost : JSValue) (ck : String)
    (i v u₁ u₂ : Except String JSValue) (ev : GenEvent) :
    logUsage env vendor cid ty cost ck = .ok () ∧
    (generateHandler env ⟨i, v, u₁⟩ ev).1 =
      (generateHandler env ⟨i, v, u₂⟩ ev).1 := by
  refine ⟨logUsage_ok env vendor cid ty cost ck, ?_⟩
  unfold generateHandler
  rw [genTry_usage_indep env i v u₁ u₂]

/-- On a falsy customer_id the success tail skips the usage log and
returns the plain 200 envelope. -/
theorem genFinish_falsy_cid (env : Env) (vendor : Vendor)
    (ty cid cost : JSValue) (ck : String) (r : JSValue)
    (h : cid.truthy = false) :
    genFinish env vendor ty cid cost ck r =
      .ok (⟨200, .obj ([("success", .bool true), ("type", ty),
        ("cost", cost)] ++ spreadFields r)⟩, none) := by
  simp [genFinish, h, pure_ok]

/-- When the request's customer_id is falsy, any successful run of the
try block records no usage call. -/
theorem genTry_snd_none (env : Env) (vendor : Vendor) (ev : GenEvent)
    (b cid : JSValue) (hb : ev.body = .ok b)
    (hcid : b.getProp "customer_id" = .ok cid) (hf : cid.truthy = false)
    (r : Response × Option UsageCall) (h : genTry env vendor ev = .ok r) :
    r.2 = none := by
  unfold genTry at h
  rw [hb, ok_bind] at h
  cases hT : b.getProp "type" with
  | error e => rw [hT, error_bind] at h; exact absurd h (by simp)
  | ok t =>
    rw [hT, ok_bind] at h
    cases hP : b.getProp "prompt" with
    | error e => rw [hP, error_bind] at h; exact absurd h (by simp)
    | ok p =>
      rw [hP, ok_bind, hcid, ok_bind] at h
      cases hO : optsOf b with
      | error e => rw [hO, error_bind] at h; exact absurd h (by simp)
      | ok opts =>
        rw [hO, ok_bind] at h
        by_cases hMiss : (¬ t.truthy = true ∨ ¬ p.truthy = true)
        · rw [if_pos hMiss, pure_ok] at h
          obtain rfl : _ = r := Except.ok.inj h
          rfl
        · rw [if_neg hMiss] at h
          by_cases hImg : t = .str "image"
          · rw [if_pos hImg] at h
            cases hG : generateImage env vendor p opts with
            | error e => rw [hG, error_bind] at h; exact absurd h (by simp)
            | ok res =>
              rw [hG, ok_bind] at h
              cases hK : imageCostKey opts with
              | error e => rw [hK, error_bind] at h; exact absurd h (by simp)
              | ok ck =>
                rw [hK, ok_bind, genFinish_falsy_cid env vendor t cid
                  (costOf ck) ck res hf] at h
                obtain rfl : _ = r := Except.ok.inj h
                rfl
          · rw [if_neg hImg] at h
            by_cases hVid : t = .str "video"
            · rw [if_pos hVid] at h
              cases hG : generateVideo env vendor p opts with
              | error e => rw [hG, error_bind] at h; exact absurd h (by simp)
              | ok res =>
                rw [hG, ok_bind, genFinish_falsy_cid env vendor t cid
                  (costOf "runway-video") "runway-video" res hf] at h
                obtain rfl : _ = r := Except.ok.inj h
                rfl
            · rw [if_neg hVid, pure_ok] at h
              obtain rfl : _ = r := Except.ok.inj h
              rfl

/-- C10: the Creative Generator treats a falsy customer_id (the empty
string included) as absent: the usage logger is not invoked — whatever
the logging-sink configuration — and the whole HTTP response is the one
computed for the same request with the customer_id field absent. -/
theorem falsy_customer_id_like_absent (env : Env) (vendor : Vendor)
    (ev ev₂ : GenEvent) (b b₂ cid : JSValue)
    (hm : ev.httpMethod = "POST") (hm₂ : ev₂.httpMethod = "POST")
    (hb : ev.body = .ok b) (hb₂ : ev₂.body = .ok b₂)
    (hcid : b.getProp "customer_id" = .ok cid) (hf : cid.truthy = false)
    (hcid₂ : b₂.getProp "customer_id" = .ok .undefined)
    (hty : b.getProp "type" = b₂.getProp "type")
    (hp : b.getProp "prompt" = b₂.getProp "prompt")
    (ho : b.getProp "options" = b₂.getProp "options") :
    (generateHandler env vendor ev).2 = none ∧
    generateHandler env vendor ev = generateHandler env vendor ev₂ := by
  obtain ⟨t, hT⟩ := getProp_ok_of_ok hcid "type"
  obtain ⟨p, hP⟩ := getProp_ok_of_ok hcid "prompt"
  obtain ⟨o, hO⟩ := getProp_ok_of_ok hcid "options"
  have hT₂ : b₂.getProp "type" = .ok t := hty ▸ hT
  have hP₂ : b₂.getProp "prompt" = .ok p := hp ▸ hP
  have hO₂ : b₂.getProp "options" = .ok o := ho ▸ hO
  have hopts : optsOf b = .ok (if o = .undefined then .obj [] else o) := by
    simp [optsOf, hO, ok_bind, pure_ok]
  have hopts₂ : optsOf b₂ = .ok (if o = .undefined then .obj [] else o) := by
    simp [optsOf, hO₂, ok_bind, pure_ok]
  have g₁ : ∀ ty cost ck r, genFinish env vendor ty cid cost ck r =
      .ok (⟨200, .obj ([("success", .bool true), ("type", ty),
        ("cost", cost)] ++ spreadFields r)⟩, none) :=
    fun ty cost ck r => genFinish_falsy_cid env vendor ty cid cost ck r hf
  have g₂ : ∀ ty cost ck r, genFinish env vendor ty .undefined cost ck r =
      .ok (⟨200, .obj ([("success", .bool true), ("type", ty),
        ("cost", cost)] ++ spreadFields r)⟩, none) :=
    fun ty cost ck r => genFinish_falsy_cid env vendor ty .undefined cost ck r rfl
  have hTryEq : genTry env vendor ev = genTry env vendor ev₂ := by
    unfold genTry
    rw [hb, hb₂]
    simp only [ok_bind, hT, hP, hcid, hT₂, hP₂, hcid₂, hopts, hopts₂, g₁, g₂]
  constructor
  · obtain ⟨mth, bdy⟩ := ev
    dsimp only at hm hb
    subst hm
    unfold generateHandler
    simp only [reduceIte]
    cases hg : genTry env vendor ⟨"POST", bdy⟩ with
    | error e => rfl
    | ok r =>
        simpa using genTry_snd_none env vendor ⟨"POST", bdy⟩ b cid hb hcid hf r hg
  · unfold generateHandler
    rw [hm, hm₂, hTryEq]

theorem falsy_customer_id_like_absent_witness :
    (generateHandler envAll vendorImage
      ⟨"POST", .ok (.obj [("type", .str "image"), ("prompt", .str "a cat"),
        ("customer_id", .str "")])⟩).2 = none ∧
    generateHandler envAll vendorImage
      ⟨"POST", .ok (.obj [("type", .str "image"), ("prompt", .str "a cat"),
        ("customer_id", .str "")])⟩ =
    generateHandler envAll vendorImage
      ⟨"POST", .ok (.obj [("type", .str "image"),
        ("prompt", .str "a cat")])⟩ :=
  falsy_customer_id_like_absent envAll vendorImage
    ⟨"POST", .ok (.obj [("type", .str "image"), ("prompt", .str "a cat"),
      ("customer_id", .str "")])⟩
    ⟨"POST", .ok (.obj [("type", .str "image"), ("prompt", .str "a cat")])⟩
    (.obj [("type", .str "image"), ("prompt", .str "a cat"),
      ("customer_id", .str "")])
    (.obj [("type", .str "image"), ("prompt", .str "a cat")])
    (.str "") rfl rfl rfl rfl rfl (by decide) rfl rfl rfl rfl

/-- Every successful image generation result is an object with exactly
the fields image_url, revised_prompt, model, size, quality, in order. -/
theorem generateImage_shape (env : Env) (vendor : Vendor) (p o r : JSValue)
    (h : generateImage env vendor p o = .ok r) :
    ∃ u rp m s q, r = .obj [("image_url", u), ("revised_prompt", rp),
      ("model", m), ("size", s), ("quality", q)] := by
  unfold generateImage destr at h
  simp only [Bind.bind, Except.bind] at h
  repeat' split at h
  all_goals first
    | exact absurd h (by simp)
    | exact ⟨_, _, _, _, _, (Except.ok.inj h).symm⟩

/-- Every successful video generation result is an object with exactly
the fields task_id, status = processing, poll_url, model, duration and
the fixed note text, in order. -/
theorem generateVideo_shape (env : Env) (vendor : Vendor) (p o r : JSValue)
    (h : generateVideo env vendor p o = .ok r) :
    ∃ tid m d, r = .obj [("task_id", tid), ("status", .str "processing"),
      ("poll_url", .str ("https://api.dev.runwayml.com/v1/tasks/" ++ tid.toDisplay)),
      ("model", m), ("duration", d),
      ("note", .str "Video is generating. Poll the task_id endpoint for completion.")] := by
  unfold generateVideo destr at h
  simp only [Bind.bind, Except.bind] at h
  repeat' split at h
  all_goals first
    | exact absurd h (by simp)
    | exact ⟨_, _, _, (Except.ok.inj h).symm⟩

/-- Whatever the usage-log decision, the success tail's response part is
the 200 envelope with the result fields spread at top level. -/
theorem genFinish_fst (env : Env) (vendor : Vendor) (ty cid cost : JSValue)
    (ck : String) (r : JSValue) :
    ∃ c, genFinish env vendor ty cid cost ck r =
      .ok (⟨200, .obj ([("success", .bool true), ("type", ty),
        ("cost", cost)] ++ spreadFields r)⟩, c) := by
  unfold genFinish
  by_cases hc : (cid.truthy && envTruthy env.SUPABASE_URL) = true <;>
    simp [hc, logUsage_ok, ok_bind, pure_ok]

/-- C8 amended: a successful Creative Generator response is exactly the
envelope success/type/cost with the generation result's fields merged
at top level; the image result carries exactly image_url,
revised_prompt, model, size, quality, and the video result exactly
task_id, status = processing, poll_url, model, duration plus the fixed
note field (which the spec's field list omits). -/
theorem success_envelope :
    (∀ (env : Env) (vendor : Vendor) (p o r : JSValue),
      generateImage env vendor p o = .ok r →
      ∃ u rp m s q, r = .obj [("image_url", u), ("revised_prompt", rp),
        ("model", m), ("size", s), ("quality", q)]) ∧
    (∀ (env : Env) (vendor : Vendor) (p o r : JSValue),
      generateVideo env vendor p o = .ok r →
      ∃ tid m d, r = .obj [("task_id", tid), ("status", .str "processing"),
        ("poll_url", .str ("https://api.dev.runwayml.com/v1/tasks/" ++ tid.toDisplay)),
        ("model", m), ("duration", d),
        ("note", .str "Video is generating. Poll the task_id endpoint for completion.")]) ∧
    (∀ (env : Env) (vendor : Vendor) (ev : GenEvent)
      (b ty p opts r : JSValue) (rf : List (String × JSValue)) (k : String),
      ev.httpMethod = "POST" → ev.body = .ok b →
      b.getProp "type" = .ok ty → b.getProp "prompt" = .ok p →
      p.truthy = true → optsOf b = .ok opts →
      ((ty = .str "image" ∧ generateImage env vendor p opts = .ok r ∧
          imageCostKey opts = .ok k) ∨
       (ty = .str "video" ∧ generateVideo env vendor p opts = .ok r ∧
          k = "runway-video")) →
      r = .obj rf →
      (generateHandler env vendor ev).1 =
        ⟨200, .obj ([("success", .bool true), ("type", ty),
          ("cost", costOf k)] ++ rf)⟩) := by
  refine ⟨generateImage_shape, generateVideo_shape, ?_⟩
  intro env vendor ev b ty p opts r rf k hm hb hty hp hpt hopts hbranch hr
  obtain ⟨cid, hcid⟩ := getProp_ok_of_ok hty "customer_id"
  obtain ⟨mth, bdy⟩ := ev
  dsimp only at hm hb
  subst hm
  subst hb
  subst hr
  unfold generateHandler
  simp only [reduceIte]
  rcases hbranch with ⟨hI, hG, hK⟩ | ⟨hV, hG, hK⟩
  · subst hI
    obtain ⟨c, hc⟩ := genFinish_fst env vendor (.str "image") cid (costOf k) k
      (.obj rf)
    rw [show genTry env vendor ⟨"POST", .ok b⟩ =
        .ok (⟨200, .obj ([("success", .bool true), ("type", .str "image"),
          ("cost", costOf k)] ++ spreadFields (.obj rf))⟩, c) from ?_]
    · rfl
    · unfold genTry
      rw [ok_bind, hty, ok_bind, hp, ok_bind, hcid, ok_bind, hopts, ok_bind,
        if_neg (by simp [hpt]; decide), if_pos rfl, hG, ok_bind, hK, ok_bind, hc]
  · subst hV
    subst hK
    obtain ⟨c, hc⟩ := genFinish_fst env vendor (.str "video") cid
      (costOf "runway-video") "runway-video" (.obj rf)
    rw [show genTry env vendor ⟨"POST", .ok b⟩ =
        .ok (⟨200, .obj ([("success", .bool true), ("type", .str "video"),
          ("cost", costOf "runway-video")] ++ spreadFields (.obj rf))⟩, c)
        from ?_]
    · rfl
    · unfold genTry
      rw [ok_bind, hty, ok_bind, hp, ok_bind, hcid, ok_bind, hopts, ok_bind,
        if_neg (by simp [hpt]; decide), if_neg (by decide), if_pos rfl, hG, ok_bind,
        hc]

/-- C8 as stated is false: a successful video response carries an extra
note field beyond the claimed exact field set. -/
theorem success_envelope_counterexample :
    fieldOf (generateHandler envAll vendorVideo
      ⟨"POST", .ok (.obj [("type", .str "video"),
        ("prompt", .str "hi")])⟩).1 "note" =
      some (.str "Video is generating. Poll the task_id endpoint for completion.") ∧
    ((serializedFields (generateHandler envAll vendorVideo
      ⟨"POST", .ok (.obj [("type", .str "video"),
        ("prompt", .str "hi")])⟩).1.body).map Prod.fst ≠
      ["success", "type", "cost", "task_id", "status", "poll_url", "model",
       "duration"]) := by
  constructor
  · rfl
  · decide

theorem success_envelope_witness :
    (generateHandler envAll vendorVideo
      ⟨"POST", .ok (.obj [("type", .str "video"),
        ("prompt", .str "hi")])⟩).1 =
      ⟨200, .obj ([("success", .bool true), ("type", .str "video"),
        ("cost", costOf "runway-video")] ++
        [("task_id", .str "t1"), ("status", .str "processing"),
         ("poll_url", .str "https://api.dev.runwayml.com/v1/tasks/t1"),
         ("model", .str "gen3a_turbo"), ("duration", .num 5),
         ("note", .str "Video is generating. Poll the task_id endpoint for completion.")])⟩ :=
  success_envelope.2.2 envAll vendorVideo
    ⟨"POST", .ok (.obj [("type", .str "video"), ("prompt", .str "hi")])⟩
    (.obj [("type", .str "video"), ("prompt", .str "hi")])
    (.str "video") (.str "hi") (.obj [])
    (.obj [("task_id", .str "t1"), ("status", .str "processing"),
      ("poll_url", .str "https://api.dev.runwayml.com/v1/tasks/t1"),
      ("model", .str "gen3a_turbo"), ("duration", .num 5),
      ("note", .str "Video is generating. Poll the task_id endpoint for completion.")])
    [("task_id", .str "t1"), ("status", .str "processing"),
      ("poll_url", .str "https://api.dev.runwayml.com/v1/tasks/t1"),
      ("model", .str "gen3a_turbo"), ("duration", .num 5),
      ("note", .str "Video is generating. Poll the task_id endpoint for completion.")]
    "runway-video" rfl rfl rfl rfl rfl rfl
    (Or.inr ⟨rfl, rfl, rfl⟩) rfl

/-- A truthy value is not `undefined`. -/
theorem ne_undef_of_truthy {v : JSValue} (h : v.truthy = true) :
    v ≠ .undefined := by
  intro hh
  subst hh
  simp [JSValue.truthy] at h

/-- C1 as stated is false: on vendor status SUCCEEDED with no output
list, the serialized body omits video_url entirely (JSON.stringify
drops a property whose value is undefined) rather than carrying a null
video_url; the status projection itself is completed as claimed. -/
theorem status_projection_counterexample :
    fieldOf (statusHandler envAll (.ok (.obj [("status", .str "SUCCEEDED")]))
      ⟨"GET", .obj [("task_id", .str "abc")]⟩) "video_url" = none ∧
    fieldOf (statusHandler envAll (.ok (.obj [("status", .str "SUCCEEDED")]))
      ⟨"GET", .obj [("task_id", .str "abc")]⟩) "video_url" ≠ some .null ∧
    fieldOf (statusHandler envAll (.ok (.obj [("status", .str "SUCCEEDED")]))
      ⟨"GET", .obj [("task_id", .str "abc")]⟩) "status" =
      some (.str "completed") := by
  refine ⟨rfl, ?_, rfl⟩
  decide

/-- C1 amended: for a Status Checker GET with a truthy task_id, the
Runway key configured, and vendor data carrying a status string and no
error field, the response is 200 and the projected status is completed
exactly on SUCCEEDED, failed exactly on FAILED and processing otherwise
(case-sensitive); the serialized video_url is the first vendor output
element when SUCCEEDED with a nonempty output list whose head is
defined, is omitted from the body (not null) when SUCCEEDED with an
absent or empty output list, and is null for every non-SUCCEEDED
status. -/
theorem status_projection (env : Env) (data tid st out : JSValue)
    (ev : StatusEvent) (s : String)
    (henv : envTruthy env.RUNWAY_API_KEY = true)
    (hm : ev.httpMethod = "GET")
    (htid : ev.queryStringParameters.getPropChain "task_id" = tid)
    (htt : tid.truthy = true)
    (herr : data.getProp "error" = .ok .undefined)
    (hst : data.getProp "status" = .ok st) (hs : st = .str s)
    (hout : data.getPropChain "output" = out) :
    (statusHandler env (.ok data) ev).statusCode = 200 ∧
    fieldOf (statusHandler env (.ok data) ev) "status" =
      some (.str (if s = "SUCCEEDED" then "completed"
                  else if s = "FAILED" then "failed" else "processing")) ∧
    (s = "SUCCEEDED" → ∀ x rest, out = .arr (x :: rest) → x ≠ .undefined →
      fieldOf (statusHandler env (.ok data) ev) "video_url" = some x) ∧
    (s = "SUCCEEDED" → (out = .undefined ∨ out = .arr []) →
      fieldOf (statusHandler env (.ok data) ev) "video_url" = none) ∧
    (s ≠ "SUCCEEDED" →
      fieldOf (statusHandler env (.ok data) ev) "video_url" = some .null) := by
  subst hs
  obtain ⟨prog, hprog⟩ := getProp_ok_of_ok herr "progress"
  obtain ⟨mth, qsp⟩ := ev
  dsimp only at hm htid
  subst hm
  have htry : statusTry env (.ok data) tid =
      .ok ⟨200, .obj [("task_id", tid),
        ("status", .str (if s = "SUCCEEDED" then "completed"
          else if s = "FAILED" then "failed" else "processing")),
        ("video_url", if s = "SUCCEEDED" then out.idx0Chain else .null),
        ("progress", prog), ("raw_status", .str s)]⟩ := by
    unfold statusTry
    simp [henv, herr, hst, hprog, hout, ok_bind, pure_ok, JSValue.truthy,
      JSValue.str.injEq]
  have hresp : statusHandler env (.ok data) ⟨"GET", qsp⟩ =
      ⟨200, .obj [("task_id", tid),
        ("status", .str (if s = "SUCCEEDED" then "completed"
          else if s = "FAILED" then "failed" else "processing")),
        ("video_url", if s = "SUCCEEDED" then out.idx0Chain else .null),
        ("progress", prog), ("raw_status", .str s)]⟩ := by
    unfold statusHandler
    rw [htid]
    simp [htt, htry]
  have htid_ne : tid ≠ .undefined := ne_undef_of_truthy htt
  refine ⟨by rw [hresp], ?_, ?_, ?_, ?_⟩
  · by_cases hpr : prog = JSValue.undefined <;>
      simp [hresp, fieldOf, serializedFields, List.filter, List.find?,
        htid_ne, hpr]
  · intro hS x rest hx hxu
    subst hS
    subst hx
    by_cases hpr : prog = JSValue.undefined <;>
      simp [hresp, fieldOf, serializedFields, List.filter, List.find?,
        htid_ne, hpr, JSValue.idx0Chain, JSValue.idx0, hxu]
  · intro hS hcase
    subst hS
    rcases hcase with rfl | rfl <;>
      by_cases hpr : prog = JSValue.undefined <;>
        simp [hresp, fieldOf, serializedFields, List.filter, List.find?,
          htid_ne, hpr, JSValue.idx0Chain, JSValue.idx0]
  · intro hS
    by_cases hpr : prog = JSValue.undefined <;>
      simp [hresp, fieldOf, serializedFields, List.filter, List.find?,
        htid_ne, hpr, hS]

theorem status_projection_witness :
    (statusHandler envAll (.ok (.obj [("status", .str "FAILED")]))
      ⟨"GET", .obj [("task_id", .str "abc")]⟩).statusCode = 200 ∧
    fieldOf (statusHandler envAll (.ok (.obj [("status", .str "FAILED")]))
      ⟨"GET", .obj [("task_id", .str "abc")]⟩) "status" =
      some (.str "failed") ∧
    fieldOf (statusHandler envAll (.ok (.obj [("status", .str "FAILED")]))
      ⟨"GET", .obj [("task_id", .str "abc")]⟩) "video_url" =
      some .null := by
  have h := status_projection envAll (.obj [("status", .str "FAILED")])
    (.str "abc") (.str "FAILED") .undefined
    ⟨"GET", .obj [("task_id", .str "abc")]⟩ "FAILED"
    rfl rfl rfl (by decide) rfl rfl rfl rfl
  exact ⟨h.1, by simpa using h.2.1, h.2.2.2.2 (by decide)⟩
